import Mathlib

/-!
Verification of the blog-backend CRUD service.

The development is a shallow embedding of the two source files:
* the mongoose model `Blog` (schema fields, defaults, `trim` setters and the
  `pre("save")` / `pre("findOneAndUpdate")` hooks that stamp `updatedAt`), and
* the five express route handlers in `routes/blogRoutes.js`
  (list, get-by-id, create, update, delete) together with the
  `validateBlog` express-validator chain.

The storage layer (MongoDB via mongoose) is modelled as a list of documents
plus a fresh-id counter and a `failing` flag for an unreachable database.
Timestamps are natural-number clock readings passed to each operation;
`Date.now()` inside one request handler is one reading `now`.
MongoDB ObjectIds are modelled in their canonical form: 24 hexadecimal
characters; a string not of that shape makes mongoose raise a `CastError`.
-/

namespace BlogSite

/-- A persisted blog document, after the mongoose schema in `models/Blog.js`:
`title`, `content`, `author` strings, `tags` an array of strings,
`createdAt` / `updatedAt` dates (modelled as `Nat` clock readings), plus the
storage-generated `_id`. Every field of a stored document is present. -/
structure Blog where
  id : String
  title : String
  content : String
  author : String
  tags : List String
  createdAt : Nat
  updatedAt : Nat
deriving Repr, DecidableEq

/-- The storage layer: the persisted documents in insertion order, a counter
from which fresh ObjectIds are generated, and whether the database is
currently unreachable (every operation then errors). -/
structure DB where
  docs : List Blog
  nextId : Nat
  failing : Bool
deriving Repr, DecidableEq

/-- Hexadecimal digit test for ObjectId characters. -/
def isHexDigit (c : Char) : Bool :=
  c.isDigit || ('a' ≤ c && c ≤ 'f') || ('A' ≤ c && c ≤ 'F')

/-- Well-formedness of an identifier for the storage layer: the canonical
MongoDB ObjectId form, a 24-character hexadecimal string. -/
def isValidObjectId (s : String) : Bool :=
  s.length == 24 && s.toList.all isHexDigit

/-- Hex digit character for a value below 16 (lowercase, as mongoose prints). -/
def hexDigitChar (n : Nat) : Char :=
  if n < 10 then Char.ofNat (48 + n) else Char.ofNat (97 + (n - 10))

/-- The storage layer's ObjectId generator, modelled as the 24-digit
hexadecimal rendering of the fresh-id counter. -/
def genId (n : Nat) : String :=
  String.mk ((List.range 24).map (fun i => hexDigitChar (n / 16 ^ (23 - i) % 16)))

/-- Whether the request supplied `tags` as a JSON array of strings or as some
non-array value (`isArray` distinguishes exactly this). -/
inductive JTags where
  | arr (elems : List String)
  | notArr
deriving Repr, DecidableEq

/-- A request body for create/update: each field may be absent. -/
structure ReqBody where
  title : Option String
  content : Option String
  author : Option String
  tags : Option JTags
deriving Repr, DecidableEq

/-- Leading- and trailing-whitespace removal on a character list. -/
def trimChars (l : List Char) : List Char :=
  ((l.dropWhile Char.isWhitespace).reverse.dropWhile Char.isWhitespace).reverse

/-- JavaScript `String.prototype.trim` (as used by the validator's `trim()`
sanitizer and the schema's `trim: true` setters): strip surrounding
whitespace. -/
def strTrim (s : String) : String :=
  String.mk (trimChars s.toList)

/-- One entry of `validationResult(req).array()`: field path and message. -/
structure VErr where
  path : String
  msg : String
deriving Repr, DecidableEq

/-- The `body("title").trim().notEmpty().withMessage("Title is required")
.isLength({max:100}).withMessage(...)` chain. A missing field behaves as the
empty string; both validators of the chain run and their errors accumulate. -/
def titleErrors (t : Option String) : List VErr :=
  let v := strTrim (t.getD "")
  (if v = "" then [⟨"title", "Title is required"⟩] else [])
    ++ (if v.length > 100 then [⟨"title", "Title cannot exceed 100 characters"⟩] else [])

/-- The `body("content").trim().notEmpty().withMessage("Content is required")` chain. -/
def contentErrors (t : Option String) : List VErr :=
  let v := strTrim (t.getD "")
  if v = "" then [⟨"content", "Content is required"⟩] else []

/-- The `body("author")` chain: required, and at most 50 characters. -/
def authorErrors (t : Option String) : List VErr :=
  let v := strTrim (t.getD "")
  (if v = "" then [⟨"author", "Author is required"⟩] else [])
    ++ (if v.length > 50 then [⟨"author", "Author name cannot exceed 50 characters"⟩] else [])

/-- The `body("tags").optional().isArray().withMessage("Tags must be an array")`
chain: an absent field is skipped, a present non-array value fails. -/
def tagsErrors (t : Option JTags) : List VErr :=
  match t with
  | none => []
  | some (.arr _) => []
  | some .notArr => [⟨"tags", "Tags must be an array"⟩]

/-- The `validateBlog` middleware array: all four chains run on every request
and `validationResult` collects every violation, in chain order. -/
def validateBlog (req : ReqBody) : List VErr :=
  titleErrors req.title ++ contentErrors req.content
    ++ authorErrors req.author ++ tagsErrors req.tags

/-- The sanitizing effect of the `.trim()` steps of `validateBlog` on
`req.body`: title, content and author are trimmed in place before the route
handler destructures the body. `tags` has no sanitizer. -/
def sanitize (req : ReqBody) : ReqBody :=
  { req with
    title := req.title.map strTrim
    content := req.content.map strTrim
    author := req.author.map strTrim }

/-- Errors a storage call can raise: `CastError` for a malformed ObjectId
(raised while casting the query, before reaching the database), or a
connection-level failure when the database is unreachable. -/
inductive DbErr where
  | castError
  | connError
deriving Repr, DecidableEq

/-- Model of `Blog.find().sort({ createdAt: -1 })`: every document, ordered by
`createdAt` descending. -/
def findAllSorted (db : DB) : Except DbErr (List Blog) :=
  if db.failing then .error .connError
  else .ok (db.docs.mergeSort (fun a b => b.createdAt ≤ a.createdAt))

/-- Model of `Blog.findById(id)`: casting a malformed id raises `CastError`; otherwise
the first stored document with that id, or `none`. -/
def findById (db : DB) (id : String) : Except DbErr (Option Blog) :=
  if !isValidObjectId id then .error .castError
  else if db.failing then .error .connError
  else .ok (db.docs.find? (fun b => b.id == id))

/-- Construction `new Blog({title, content, author, tags})` followed by the schema's
behaviour on save: the `trim: true` setters trim each string field and each
tag element, the `createdAt`/`updatedAt` defaults are `Date.now`, and the
`pre("save")` hook re-stamps `updatedAt = Date.now()`; within one request
both readings are the same `now`. -/
def mkBlogDoc (id title content author : String) (tags : List String) (now : Nat) : Blog :=
  { id := id
    title := strTrim title
    content := strTrim content
    author := strTrim author
    tags := tags.map strTrim
    createdAt := now
    updatedAt := now }

/-- Model of `blog.save()`: appends the new document and consumes a fresh id. -/
def saveBlog (db : DB) (doc : Blog) : Except DbErr (Blog × DB) :=
  if db.failing then .error .connError
  else .ok (doc, { db with docs := db.docs ++ [doc], nextId := db.nextId + 1 })

/-- Model of `Blog.findByIdAndUpdate(id, {title, content, author, tags}, {new: true,
runValidators: true})` with the `pre("findOneAndUpdate")` hook stamping
`updatedAt = Date.now()`. The schema's `trim` setters apply to the update.
Returns the updated document (`new: true`) or `none` when no document has
that id; a malformed id raises `CastError` before the query runs. -/
def findByIdAndUpdate (db : DB) (id : String) (title content author : String)
    (tags : List String) (now : Nat) : Except DbErr (Option Blog × DB) :=
  if !isValidObjectId id then .error .castError
  else if db.failing then .error .connError
  else
    match db.docs.find? (fun b => b.id == id) with
    | none => .ok (none, db)
    | some old =>
      let updated : Blog :=
        { old with
          title := strTrim title
          content := strTrim content
          author := strTrim author
          tags := tags.map strTrim
          updatedAt := now }
      .ok (some updated, { db with docs := db.docs.map (fun b => if b.id == id then updated else b) })

/-- Model of `Blog.findByIdAndDelete(id)`: removes and returns the matching document,
`none` when absent, `CastError` on a malformed id. -/
def findByIdAndDelete (db : DB) (id : String) : Except DbErr (Option Blog × DB) :=
  if !isValidObjectId id then .error .castError
  else if db.failing then .error .connError
  else
    match db.docs.find? (fun b => b.id == id) with
    | none => .ok (none, db)
    | some old => .ok (some old, { db with docs := db.docs.filter (fun b => b.id != id) })

/-- A JSON response from a blog route handler: HTTP status plus the JSON
body fields the handlers emit (absent fields are `none` / `[]`). -/
structure Resp where
  status : Nat
  success : Bool
  message : Option String := none
  data : Option Blog := none
  dataList : Option (List Blog) := none
  count : Option Nat := none
  errors : List VErr := []
deriving Repr, DecidableEq

/-- Handler `GET /api/blogs`: list all blogs newest-first, or 500 on a storage error. -/
def getAllBlogs (db : DB) : Resp :=
  match findAllSorted db with
  | .ok blogs =>
    { status := 200, success := true, count := some blogs.length, dataList := some blogs }
  | .error _ =>
    { status := 500, success := false, message := some "Error fetching blogs" }

/-- Handler `GET /api/blogs/:id`: 200 with the document, 404 when absent, 400 on a
`CastError`, 500 on any other storage error. -/
def getBlogById (db : DB) (id : String) : Resp :=
  match findById db id with
  | .ok (some b) => { status := 200, success := true, data := some b }
  | .ok none => { status := 404, success := false, message := some "Blog not found" }
  | .error .castError => { status := 400, success := false, message := some "Invalid blog ID" }
  | .error .connError => { status := 500, success := false, message := some "Error fetching blog" }

/-- The `tags || []` default applied by the create and update handlers to the
destructured body: an absent `tags` becomes the empty array. (A present
non-array value never reaches this point: validation has already rejected
the request.) -/
def tagsOrEmpty : Option JTags → List String
  | some (.arr l) => l
  | some .notArr => []
  | none => []

/-- Handler `POST /api/blogs`: run `validateBlog`; on any violation answer 400 with
the collected errors and touch no storage; otherwise build the document from
the sanitized body with a fresh id and save it, answering 201 with the
stored document, or 500 on a storage error. -/
def createBlog (db : DB) (req0 : ReqBody) (now : Nat) : Resp × DB :=
  let errs := validateBlog req0
  let req := sanitize req0
  if !errs.isEmpty then
    ({ status := 400, success := false, message := some "Validation failed", errors := errs }, db)
  else
    let doc := mkBlogDoc (genId db.nextId) (req.title.getD "") (req.content.getD "")
      (req.author.getD "") (tagsOrEmpty req.tags) now
    match saveBlog db doc with
    | .ok (saved, db1) =>
      ({ status := 201, success := true, message := some "Blog created successfully",
         data := some saved }, db1)
    | .error _ =>
      ({ status := 500, success := false, message := some "Error creating blog" }, db)

/-- Handler `PUT /api/blogs/:id`: run `validateBlog`; on any violation answer 400 with
the collected errors and touch no storage; otherwise `findByIdAndUpdate`,
answering 404 when no document has this id, 200 with the updated document on
success, 400 on `CastError`, 500 on any other storage error. -/
def updateBlog (db : DB) (id : String) (req0 : ReqBody) (now : Nat) : Resp × DB :=
  let errs := validateBlog req0
  let req := sanitize req0
  if !errs.isEmpty then
    ({ status := 400, success := false, message := some "Validation failed", errors := errs }, db)
  else
    match findByIdAndUpdate db id (req.title.getD "") (req.content.getD "")
      (req.author.getD "") (tagsOrEmpty req.tags) now with
    | .ok (some b, db1) =>
      ({ status := 200, success := true, message := some "Blog updated successfully",
         data := some b }, db1)
    | .ok (none, db1) =>
      ({ status := 404, success := false, message := some "Blog not found" }, db1)
    | .error .castError =>
      ({ status := 400, success := false, message := some "Invalid blog ID" }, db)
    | .error .connError =>
      ({ status := 500, success := false, message := some "Error updating blog" }, db)

/-- Handler `DELETE /api/blogs/:id`: 200 with an acknowledgement when a document was
removed, 404 when absent, 400 on `CastError`, 500 on any other error. -/
def deleteBlog (db : DB) (id : String) : Resp × DB :=
  match findByIdAndDelete db id with
  | .ok (some _, db1) =>
    ({ status := 200, success := true, message := some "Blog deleted successfully" }, db1)
  | .ok (none, db1) =>
    ({ status := 404, success := false, message := some "Blog not found" }, db1)
  | .error .castError =>
    ({ status := 400, success := false, message := some "Invalid blog ID" }, db)
  | .error .connError =>
    ({ status := 500, success := false, message := some "Error deleting blog" }, db)

/-! ### Helper lemmas -/

/-- Every character produced by `hexDigitChar` on a value below 16 is a hex digit. -/
theorem isHexDigit_hexDigitChar : ∀ m, m < 16 → isHexDigit (hexDigitChar m) = true := by
  decide

/-- Generated ObjectIds are well-formed identifiers. -/
theorem isValidObjectId_genId (n : Nat) : isValidObjectId (genId n) = true := by
  unfold isValidObjectId genId
  rw [Bool.and_eq_true]
  constructor
  · simp [String.length]
  · rw [List.all_eq_true]
    intro c hc
    have : c ∈ (List.range 24).map (fun i => hexDigitChar (n / 16 ^ (23 - i) % 16)) := hc
    rw [List.mem_map] at this
    obtain ⟨i, _, rfl⟩ := this
    exact isHexDigit_hexDigitChar _ (Nat.mod_lt _ (by norm_num))

/-- A nonempty validation result makes the handlers' `!errors.isEmpty()` test fire. -/
theorem isEmpty_false_of_ne_nil {l : List VErr} (h : l ≠ []) : l.isEmpty = false := by
  cases l with
  | nil => exact absurd rfl h
  | cons a t => rfl

/-! ### Claim theorems -/

/-- C1: for every valid creation input (on a reachable database), the create
operation persists a new entity whose server-generated id, `createdAt` and
`updatedAt` are all set, with `createdAt` equal to `updatedAt` at creation,
and returns that stored entity (status 201). -/
theorem create_persists_fresh_entity (db : DB) (req : ReqBody) (now : Nat)
    (hval : validateBlog req = []) (hok : db.failing = false) :
    ∃ b db1, createBlog db req now =
        ({ status := 201, success := true, message := some "Blog created successfully",
           data := some b }, db1) ∧
      b ∈ db1.docs ∧ b.id = genId db.nextId ∧ isValidObjectId b.id = true ∧
      b.createdAt = now ∧ b.updatedAt = now ∧ b.createdAt = b.updatedAt := by
  refine ⟨mkBlogDoc (genId db.nextId) ((sanitize req).title.getD "")
      ((sanitize req).content.getD "") ((sanitize req).author.getD "")
      (tagsOrEmpty (sanitize req).tags) now,
    { db with
      docs := db.docs ++ [mkBlogDoc (genId db.nextId) ((sanitize req).title.getD "")
        ((sanitize req).content.getD "") ((sanitize req).author.getD "")
        (tagsOrEmpty (sanitize req).tags) now]
      nextId := db.nextId + 1 },
    ?_, ?_, rfl, isValidObjectId_genId _, rfl, rfl, rfl⟩
  · simp [createBlog, saveBlog, hval, hok]
  · simp

/-- C1 witness: a concrete valid creation on an empty database. -/
theorem create_persists_fresh_entity_witness :
    validateBlog ⟨some "T", some "C", some "A", none⟩ = [] ∧
    (⟨[], 0, false⟩ : DB).failing = false ∧
    ∃ b db1, createBlog ⟨[], 0, false⟩ ⟨some "T", some "C", some "A", none⟩ 5 =
        ({ status := 201, success := true, message := some "Blog created successfully",
           data := some b }, db1) ∧
      b ∈ db1.docs ∧ b.id = genId 0 ∧ isValidObjectId b.id = true ∧
      b.createdAt = 5 ∧ b.updatedAt = 5 ∧ b.createdAt = b.updatedAt :=
  ⟨by decide, rfl,
    create_persists_fresh_entity ⟨[], 0, false⟩ ⟨some "T", some "C", some "A", none⟩ 5
      (by decide) rfl⟩

/-- C5: a create or update request that fails field validation performs no
storage interaction: the database is returned unchanged and the 400 response
carries the full list of per-field violations. -/
theorem validation_failure_writes_nothing (db : DB) (id : String) (req : ReqBody) (now : Nat)
    (hbad : validateBlog req ≠ []) :
    createBlog db req now =
      ({ status := 400, success := false, message := some "Validation failed",
         errors := validateBlog req }, db) ∧
    updateBlog db id req now =
      ({ status := 400, success := false, message := some "Validation failed",
         errors := validateBlog req }, db) := by
  have h := isEmpty_false_of_ne_nil hbad
  constructor
  · simp [createBlog, h]
  · simp [updateBlog, h]

/-- C5 witness: a concrete invalid request (missing title) leaves a concrete
database untouched on both create and update. -/
theorem validation_failure_writes_nothing_witness :
    validateBlog ⟨none, some "C", some "A", none⟩ ≠ [] ∧
    createBlog ⟨[], 0, false⟩ ⟨none, some "C", some "A", none⟩ 5 =
      ({ status := 400, success := false, message := some "Validation failed",
         errors := validateBlog ⟨none, some "C", some "A", none⟩ }, ⟨[], 0, false⟩) ∧
    updateBlog ⟨[], 0, false⟩ "000000000000000000000000" ⟨none, some "C", some "A", none⟩ 5 =
      ({ status := 400, success := false, message := some "Validation failed",
         errors := validateBlog ⟨none, some "C", some "A", none⟩ }, ⟨[], 0, false⟩) :=
  ⟨by decide,
    (validation_failure_writes_nothing ⟨[], 0, false⟩ "000000000000000000000000"
      ⟨none, some "C", some "A", none⟩ 5 (by decide)).1,
    (validation_failure_writes_nothing ⟨[], 0, false⟩ "000000000000000000000000"
      ⟨none, some "C", some "A", none⟩ 5 (by decide)).2⟩

/-- C7: a create or update request that omits `tags` stores the empty
sequence for `tags`; the field is never absent (it is total on `Blog`). -/
theorem omitted_tags_stored_empty (db : DB) (id : String) (req : ReqBody) (now : Nat)
    (htags : req.tags = none) (hval : validateBlog req = []) (hok : db.failing = false) :
    (∃ b, (createBlog db req now).1.data = some b ∧ b.tags = [] ∧
      b ∈ (createBlog db req now).2.docs) ∧
    (∀ b, (updateBlog db id req now).1.data = some b → b.tags = []) := by
  constructor
  · refine ⟨mkBlogDoc (genId db.nextId) ((sanitize req).title.getD "")
      ((sanitize req).content.getD "") ((sanitize req).author.getD "")
      (tagsOrEmpty (sanitize req).tags) now, ?_, ?_, ?_⟩
    · simp [createBlog, saveBlog, hval, hok]
    · simp [mkBlogDoc, sanitize, htags, tagsOrEmpty]
    · simp [createBlog, saveBlog, hval, hok]
  · intro b hb
    by_cases hid : isValidObjectId id
    · rcases hfind : db.docs.find? (fun x => x.id == id) with _ | old
      · simp [updateBlog, findByIdAndUpdate, hval, hok, hid, hfind] at hb
      · simp [updateBlog, findByIdAndUpdate, hval, hok, hid, hfind] at hb
        rw [← hb]
        simp [sanitize, htags, tagsOrEmpty]
    · simp [updateBlog, findByIdAndUpdate, hval, hid] at hb

/-- C7 witness: concrete create and update with `tags` omitted. -/
theorem omitted_tags_stored_empty_witness :
    (∃ b, (createBlog ⟨[], 0, false⟩ ⟨some "T", some "C", some "A", none⟩ 5).1.data = some b ∧
      b.tags = [] ∧
      b ∈ (createBlog ⟨[], 0, false⟩ ⟨some "T", some "C", some "A", none⟩ 5).2.docs) ∧
    (∀ b, (updateBlog ⟨[], 0, false⟩ "000000000000000000000000"
        ⟨some "T", some "C", some "A", none⟩ 5).1.data = some b → b.tags = []) :=
  omitted_tags_stored_empty ⟨[], 0, false⟩ "000000000000000000000000"
    ⟨some "T", some "C", some "A", none⟩ 5 rfl (by decide) rfl

/-- C3: for get-by-id, update and delete, a malformed identifier yields 400
(and never 404); a well-formed identifier matching no stored document yields
404 (on a reachable database; for update, once field validation passes,
since the handler checks the body before touching storage). -/
theorem malformed_id_400_absent_id_404 (db : DB) (id : String) (req : ReqBody) (now : Nat) :
    (isValidObjectId id = false →
      (getBlogById db id).status = 400 ∧ (updateBlog db id req now).1.status = 400 ∧
      (deleteBlog db id).1.status = 400 ∧
      (getBlogById db id).status ≠ 404 ∧ (updateBlog db id req now).1.status ≠ 404 ∧
      (deleteBlog db id).1.status ≠ 404) ∧
    (isValidObjectId id = true → db.failing = false →
      db.docs.find? (fun b => b.id == id) = none →
      (getBlogById db id).status = 404 ∧
      (validateBlog req = [] → (updateBlog db id req now).1.status = 404) ∧
      (deleteBlog db id).1.status = 404) := by
  constructor
  · intro hid
    rcases h : validateBlog req with _ | ⟨e, es⟩
    · simp [getBlogById, findById, updateBlog, findByIdAndUpdate, deleteBlog,
        findByIdAndDelete, hid, h]
    · have hne : (validateBlog req).isEmpty = false := by rw [h]; rfl
      simp [getBlogById, findById, updateBlog, deleteBlog, findByIdAndDelete, hid, hne]
  · intro hid hfail hfind
    refine ⟨?_, ?_, ?_⟩
    · simp [getBlogById, findById, hid, hfail, hfind]
    · intro hval
      simp [updateBlog, findByIdAndUpdate, hval, hid, hfail, hfind]
    · simp [deleteBlog, findByIdAndDelete, hid, hfail, hfind]

/-- C3 witness: on an empty database, a malformed id gives 400 and a
well-formed absent id gives 404, for all three operations. -/
theorem malformed_id_400_absent_id_404_witness :
    isValidObjectId "nope" = false ∧ isValidObjectId "0123456789abcdef01234567" = true ∧
    (getBlogById ⟨[], 0, false⟩ "nope").status = 400 ∧
    (updateBlog ⟨[], 0, false⟩ "nope" ⟨some "T", some "C", some "A", none⟩ 1).1.status = 400 ∧
    (deleteBlog ⟨[], 0, false⟩ "nope").1.status = 400 ∧
    (getBlogById ⟨[], 0, false⟩ "0123456789abcdef01234567").status = 404 ∧
    (updateBlog ⟨[], 0, false⟩ "0123456789abcdef01234567"
      ⟨some "T", some "C", some "A", none⟩ 1).1.status = 404 ∧
    (deleteBlog ⟨[], 0, false⟩ "0123456789abcdef01234567").1.status = 404 := by
  have h1 := (malformed_id_400_absent_id_404 ⟨[], 0, false⟩ "nope"
    ⟨some "T", some "C", some "A", none⟩ 1).1 (by decide)
  have h2 := (malformed_id_400_absent_id_404 ⟨[], 0, false⟩ "0123456789abcdef01234567"
    ⟨some "T", some "C", some "A", none⟩ 1).2 (by decide) rfl (by decide)
  exact ⟨by decide, by decide, h1.1, h1.2.1, h1.2.2.1, h2.1, h2.2.1 (by decide), h2.2.2⟩

/-- C8: a successful update stamps `updatedAt` with the update's clock
reading; when the clock has advanced past the entity's previous `updatedAt`
(clock monotonicity), the new `updatedAt` is strictly greater, and
`createdAt` is unchanged. -/
theorem update_refreshes_updatedAt (db : DB) (id : String) (req : ReqBody) (now : Nat)
    (old : Blog) (hval : validateBlog req = []) (hok : db.failing = false)
    (hid : isValidObjectId id = true)
    (hfind : db.docs.find? (fun b => b.id == id) = some old)
    (hclk : old.updatedAt < now) :
    ∃ b, (updateBlog db id req now).1.status = 200 ∧
      (updateBlog db id req now).1.data = some b ∧
      old.updatedAt < b.updatedAt ∧ b.updatedAt = now ∧
      b.createdAt = old.createdAt ∧ b.id = old.id := by
  refine ⟨{ old with
      title := strTrim ((sanitize req).title.getD "")
      content := strTrim ((sanitize req).content.getD "")
      author := strTrim ((sanitize req).author.getD "")
      tags := (tagsOrEmpty (sanitize req).tags).map strTrim
      updatedAt := now }, ?_, ?_, hclk, rfl, rfl, rfl⟩
  · simp [updateBlog, findByIdAndUpdate, hval, hok, hid, hfind]
  · simp [updateBlog, findByIdAndUpdate, hval, hok, hid, hfind]

/-- C8 witness: a concrete update of a stored document at a later clock
reading strictly increases `updatedAt` and preserves `createdAt`. -/
theorem update_refreshes_updatedAt_witness :
    ∃ b, (updateBlog ⟨[⟨"0123456789abcdef01234567", "T", "C", "A", [], 1, 1⟩], 1, false⟩
        "0123456789abcdef01234567" ⟨some "U", some "D", some "B", none⟩ 2).1.status = 200 ∧
      (updateBlog ⟨[⟨"0123456789abcdef01234567", "T", "C", "A", [], 1, 1⟩], 1, false⟩
        "0123456789abcdef01234567" ⟨some "U", some "D", some "B", none⟩ 2).1.data = some b ∧
      (1 : Nat) < b.updatedAt ∧ b.updatedAt = 2 ∧ b.createdAt = 1 ∧
      b.id = "0123456789abcdef01234567" :=
  update_refreshes_updatedAt ⟨[⟨"0123456789abcdef01234567", "T", "C", "A", [], 1, 1⟩], 1, false⟩
    "0123456789abcdef01234567" ⟨some "U", some "D", some "B", none⟩ 2
    ⟨"0123456789abcdef01234567", "T", "C", "A", [], 1, 1⟩
    (by decide) rfl (by decide) (by decide) (by decide)

/-- The success-flag/status invariant of a handler response: `success` is
`true` exactly on a 2xx status, and `false` on 400, 404 and 500. -/
def respOk (r : Resp) : Prop :=
  (r.success = true ↔ 200 ≤ r.status ∧ r.status < 300) ∧
  (r.status = 400 ∨ r.status = 404 ∨ r.status = 500 → r.success = false)

/-- C9: every response of the five blog route handlers carries a boolean
`success` flag that is `true` exactly when the status is 2xx, and `false`
on every 400, 404 and 500 response. -/
theorem success_flag_matches_status (db : DB) (id : String) (req : ReqBody) (now : Nat) :
    respOk (getAllBlogs db) ∧ respOk (getBlogById db id) ∧
    respOk (createBlog db req now).1 ∧ respOk (updateBlog db id req now).1 ∧
    respOk (deleteBlog db id).1 := by
  refine ⟨?_, ?_, ?_, ?_, ?_⟩
  · unfold getAllBlogs findAllSorted
    cases db.failing <;> simp [respOk]
  · unfold getBlogById findById
    by_cases hid : isValidObjectId id <;> cases hf : db.failing
    · rcases hfind : db.docs.find? (fun b => b.id == id) with _ | b <;>
        simp [hid, hf, hfind, respOk]
    · simp [hid, hf, respOk]
    · simp [hid, respOk]
    · simp [hid, respOk]
  · unfold createBlog saveBlog
    rcases h : validateBlog req with _ | ⟨e, es⟩
    · cases hf : db.failing <;> simp [h, hf, respOk]
    · simp [h, respOk]
  · unfold updateBlog findByIdAndUpdate
    rcases h : validateBlog req with _ | ⟨e, es⟩
    · by_cases hid : isValidObjectId id <;> cases hf : db.failing
      · rcases hfind : db.docs.find? (fun b => b.id == id) with _ | b <;>
          simp [h, hid, hf, hfind, respOk]
      · simp [h, hid, hf, respOk]
      · simp [h, hid, respOk]
      · simp [h, hid, respOk]
    · simp [h, respOk]
  · unfold deleteBlog findByIdAndDelete
    by_cases hid : isValidObjectId id <;> cases hf : db.failing
    · rcases hfind : db.docs.find? (fun b => b.id == id) with _ | b <;>
        simp [hid, hf, hfind, respOk]
    · simp [hid, hf, respOk]
    · simp [hid, respOk]
    · simp [hid, respOk]

/-- C9 witness: the invariant instantiated at a concrete database, id and
request. -/
theorem success_flag_matches_status_witness :
    respOk (getAllBlogs ⟨[], 0, false⟩) ∧
    respOk (getBlogById ⟨[], 0, false⟩ "nope") ∧
    respOk (createBlog ⟨[], 0, false⟩ ⟨some "T", some "C", some "A", none⟩ 1).1 ∧
    respOk (updateBlog ⟨[], 0, false⟩ "nope" ⟨some "T", some "C", some "A", none⟩ 1).1 ∧
    respOk (deleteBlog ⟨[], 0, false⟩ "nope").1 :=
  success_flag_matches_status ⟨[], 0, false⟩ "nope" ⟨some "T", some "C", some "A", none⟩ 1

/-- Membership in the title chain's error list. -/
theorem mem_titleErrors (e : VErr) (t : Option String) :
    e ∈ titleErrors t ↔
      (e = ⟨"title", "Title is required"⟩ ∧ strTrim (t.getD "") = "") ∨
      (e = ⟨"title", "Title cannot exceed 100 characters"⟩ ∧
        (strTrim (t.getD "")).length > 100) := by
  unfold titleErrors
  dsimp only
  split_ifs with h1 h2 <;> simp_all

/-- Membership in the content chain's error list. -/
theorem mem_contentErrors (e : VErr) (t : Option String) :
    e ∈ contentErrors t ↔
      e = ⟨"content", "Content is required"⟩ ∧ strTrim (t.getD "") = "" := by
  unfold contentErrors
  dsimp only
  split_ifs with h1 <;> simp_all

/-- Membership in the author chain's error list. -/
theorem mem_authorErrors (e : VErr) (t : Option String) :
    e ∈ authorErrors t ↔
      (e = ⟨"author", "Author is required"⟩ ∧ strTrim (t.getD "") = "") ∨
      (e = ⟨"author", "Author name cannot exceed 50 characters"⟩ ∧
        (strTrim (t.getD "")).length > 50) := by
  unfold authorErrors
  dsimp only
  split_ifs with h1 h2 <;> simp_all

/-- Membership in the tags chain's error list. -/
theorem mem_tagsErrors (e : VErr) (t : Option JTags) :
    e ∈ tagsErrors t ↔ e = ⟨"tags", "Tags must be an array"⟩ ∧ t = some .notArr := by
  rcases t with _ | (l | _) <;> simp [tagsErrors]

/-- C4: validation collects every per-field violation of a request together:
each of the six possible violation messages appears in the result exactly
when its field rule is violated (so no violation is dropped by an earlier
one), and an invalid create or update answers with the entire list. -/
theorem validation_collects_all_violations (db : DB) (id : String) (req : ReqBody) (now : Nat) :
    ((⟨"title", "Title is required"⟩ : VErr) ∈ validateBlog req ↔
      strTrim (req.title.getD "") = "") ∧
    ((⟨"title", "Title cannot exceed 100 characters"⟩ : VErr) ∈ validateBlog req ↔
      (strTrim (req.title.getD "")).length > 100) ∧
    ((⟨"content", "Content is required"⟩ : VErr) ∈ validateBlog req ↔
      strTrim (req.content.getD "") = "") ∧
    ((⟨"author", "Author is required"⟩ : VErr) ∈ validateBlog req ↔
      strTrim (req.author.getD "") = "") ∧
    ((⟨"author", "Author name cannot exceed 50 characters"⟩ : VErr) ∈ validateBlog req ↔
      (strTrim (req.author.getD "")).length > 50) ∧
    ((⟨"tags", "Tags must be an array"⟩ : VErr) ∈ validateBlog req ↔
      req.tags = some .notArr) ∧
    (validateBlog req ≠ [] →
      (createBlog db req now).1.errors = validateBlog req ∧
      (updateBlog db id req now).1.errors = validateBlog req) := by
  refine ⟨?_, ?_, ?_, ?_, ?_, ?_, ?_⟩
  · simp [validateBlog, List.mem_append, mem_titleErrors, mem_contentErrors,
      mem_authorErrors, mem_tagsErrors]
  · simp [validateBlog, List.mem_append, mem_titleErrors, mem_contentErrors,
      mem_authorErrors, mem_tagsErrors]
  · simp [validateBlog, List.mem_append, mem_titleErrors, mem_contentErrors,
      mem_authorErrors, mem_tagsErrors]
  · simp [validateBlog, List.mem_append, mem_titleErrors, mem_contentErrors,
      mem_authorErrors, mem_tagsErrors]
  · simp [validateBlog, List.mem_append, mem_titleErrors, mem_contentErrors,
      mem_authorErrors, mem_tagsErrors]
  · simp [validateBlog, List.mem_append, mem_titleErrors, mem_contentErrors,
      mem_authorErrors, mem_tagsErrors]
  · intro hne
    have h := isEmpty_false_of_ne_nil hne
    exact ⟨by simp [createBlog, h], by simp [updateBlog, h]⟩

/-- C4 witness: a request violating the title and tags rules at once gets
both violations reported, and the create response carries the whole list. -/
theorem validation_collects_all_violations_witness :
    (createBlog ⟨[], 0, false⟩ ⟨none, none, none, some .notArr⟩ 3).1.errors =
      validateBlog ⟨none, none, none, some .notArr⟩ ∧
    ((⟨"tags", "Tags must be an array"⟩ : VErr) ∈
        validateBlog ⟨none, none, none, some .notArr⟩ ↔
      (⟨none, none, none, some .notArr⟩ : ReqBody).tags = some .notArr) ∧
    ((⟨"title", "Title is required"⟩ : VErr) ∈
        validateBlog ⟨none, none, none, some .notArr⟩ ↔
      strTrim ((⟨none, none, none, some .notArr⟩ : ReqBody).title.getD "") = "") :=
  ⟨((validation_collects_all_violations ⟨[], 0, false⟩ "x"
      ⟨none, none, none, some .notArr⟩ 3).2.2.2.2.2.2 (by decide)).1,
   (validation_collects_all_violations ⟨[], 0, false⟩ "x"
      ⟨none, none, none, some .notArr⟩ 3).2.2.2.2.2.1,
   (validation_collects_all_violations ⟨[], 0, false⟩ "x"
      ⟨none, none, none, some .notArr⟩ 3).1⟩

/-- C6: the list operation answers, for any stored collection, with success,
a count equal to the number of returned entities (all of them), and the
entities ordered by `createdAt` descending. -/
theorem list_returns_all_sorted_desc (db : DB) (hok : db.failing = false) :
    ∃ l, getAllBlogs db =
        { status := 200, success := true, count := some l.length, dataList := some l } ∧
      l.Perm db.docs ∧ l.length = db.docs.length ∧
      l.Pairwise (fun x y => y.createdAt ≤ x.createdAt) := by
  refine ⟨db.docs.mergeSort (fun x y => y.createdAt ≤ x.createdAt), ?_, ?_, ?_, ?_⟩
  · simp [getAllBlogs, findAllSorted, hok]
  · exact List.mergeSort_perm _ _
  · exact (List.mergeSort_perm _ _).length_eq
  · have h := @List.sorted_mergeSort Blog
      (fun x y : Blog => decide (y.createdAt ≤ x.createdAt))
      (fun x y z h1 h2 => by
        simp only [decide_eq_true_eq] at *
        omega)
      (fun x y => by
        simp only [Bool.or_eq_true, decide_eq_true_eq]
        omega)
      db.docs
    exact h.imp (fun hxy => by simpa using hxy)

/-- C6 witness: three documents inserted oldest-first come back newest-first,
with count 3. -/
theorem list_returns_all_sorted_desc_witness :
    ∃ l, getAllBlogs ⟨[⟨"a", "T", "C", "A", [], 1, 1⟩, ⟨"b", "T", "C", "A", [], 3, 3⟩,
        ⟨"c", "T", "C", "A", [], 2, 2⟩], 3, false⟩ =
        { status := 200, success := true, count := some l.length, dataList := some l } ∧
      l.Perm [⟨"a", "T", "C", "A", [], 1, 1⟩, ⟨"b", "T", "C", "A", [], 3, 3⟩,
        ⟨"c", "T", "C", "A", [], 2, 2⟩] ∧
      l.length = ([⟨"a", "T", "C", "A", [], 1, 1⟩, ⟨"b", "T", "C", "A", [], 3, 3⟩,
        ⟨"c", "T", "C", "A", [], 2, 2⟩] : List Blog).length ∧
      l.Pairwise (fun x y => y.createdAt ≤ x.createdAt) :=
  list_returns_all_sorted_desc ⟨[⟨"a", "T", "C", "A", [], 1, 1⟩, ⟨"b", "T", "C", "A", [], 3, 3⟩,
    ⟨"c", "T", "C", "A", [], 2, 2⟩], 3, false⟩ rfl

/-- A list starting with a non-dropped element is unchanged when it is a
prefix of a list on which `dropWhile` removes nothing. -/
theorem dropWhile_rdropWhile_self (p : Char → Bool) (m : List Char)
    (h : m.dropWhile p = m) : (m.rdropWhile p).dropWhile p = m.rdropWhile p := by
  rcases hpre : m.rdropWhile p with _ | ⟨a, t⟩
  · rfl
  · obtain ⟨s, hs⟩ := List.rdropWhile_prefix (p := p) (l := m)
    rw [hpre] at hs
    subst hs
    have hpa : p a = false := by
      have h0 : (0 : Nat) < ((a :: t) ++ s).length := by simp
      have h1 := List.dropWhile_eq_self_iff.mp h h0
      simpa using h1
    simp [List.dropWhile_cons, hpa]

/-- Whitespace trimming of a character list is idempotent. -/
theorem trimChars_idem (l : List Char) : trimChars (trimChars l) = trimChars l := by
  have e : ∀ m : List Char, trimChars m =
      (m.dropWhile Char.isWhitespace).rdropWhile Char.isWhitespace := fun m => rfl
  rw [e (trimChars l), e l]
  rw [dropWhile_rdropWhile_self Char.isWhitespace _
    (List.dropWhile_idempotent Char.isWhitespace l)]
  exact List.rdropWhile_idempotent Char.isWhitespace _

/-- The function `strTrim` is idempotent: trimming a trimmed string changes nothing. -/
theorem strTrim_idem (s : String) : strTrim (strTrim s) = strTrim s :=
  congrArg String.mk (trimChars_idem s.toList)

/-- Trimming a body field that the validator's sanitizer already trimmed
equals trimming the raw field once. -/
theorem strTrim_sanitized (o : Option String) :
    strTrim ((o.map strTrim).getD "") = strTrim (o.getD "") := by
  rcases o with _ | t
  · rfl
  · exact strTrim_idem t

/-- C2 counterexample: a successful update whose supplied tag value carries
surrounding whitespace is stored (and returned) trimmed by the schema's
element-wise `trim: true` setter, so the stored entity does not hold the
supplied value verbatim. -/
theorem update_supplied_tags_counterexample :
    (updateBlog ⟨[⟨"0123456789abcdef01234567", "T", "C", "A", [], 1, 1⟩], 1, false⟩
      "0123456789abcdef01234567"
      ⟨some "T", some "C", some "A", some (.arr [" x "])⟩ 2).1.status = 200 ∧
    ((updateBlog ⟨[⟨"0123456789abcdef01234567", "T", "C", "A", [], 1, 1⟩], 1, false⟩
      "0123456789abcdef01234567"
      ⟨some "T", some "C", some "A", some (.arr [" x "])⟩ 2).1.data.map Blog.tags)
      = some ["x"] ∧
    (["x"] : List String) ≠ [" x "] := by
  refine ⟨?_, ?_, by decide⟩ <;> decide

/-- C2 (amended): a successful update on an existing entity overwrites
exactly title, content, author and tags with the supplied values after
whitespace trimming (title/content/author are trimmed by validation's
sanitizer before the handler reads them, tags element-wise by the schema
setter), refreshes `updatedAt`, leaves `createdAt` and `id` untouched,
changes no other stored document and no other storage state, and returns
the updated entity. -/
theorem update_overwrites_fields_trimmed (db : DB) (id : String) (req : ReqBody) (now : Nat)
    (old : Blog) (hval : validateBlog req = []) (hok : db.failing = false)
    (hid : isValidObjectId id = true)
    (hfind : db.docs.find? (fun b => b.id == id) = some old) :
    ∃ b, (updateBlog db id req now).1 =
        { status := 200, success := true, message := some "Blog updated successfully",
          data := some b } ∧
      b.title = strTrim (req.title.getD "") ∧
      b.content = strTrim (req.content.getD "") ∧
      b.author = strTrim (req.author.getD "") ∧
      b.tags = (tagsOrEmpty req.tags).map strTrim ∧
      b.updatedAt = now ∧ b.createdAt = old.createdAt ∧ b.id = old.id ∧
      (updateBlog db id req now).2.docs =
        db.docs.map (fun x => if x.id == id then b else x) ∧
      (updateBlog db id req now).2.nextId = db.nextId ∧
      (updateBlog db id req now).2.failing = db.failing := by
  refine ⟨{ old with
      title := strTrim ((sanitize req).title.getD "")
      content := strTrim ((sanitize req).content.getD "")
      author := strTrim ((sanitize req).author.getD "")
      tags := (tagsOrEmpty (sanitize req).tags).map strTrim
      updatedAt := now }, ?_, ?_, ?_, ?_, ?_, rfl, rfl, rfl, ?_, ?_, ?_⟩
  · simp [updateBlog, findByIdAndUpdate, hval, hok, hid, hfind]
  · simpa [sanitize] using strTrim_sanitized req.title
  · simpa [sanitize] using strTrim_sanitized req.content
  · simpa [sanitize] using strTrim_sanitized req.author
  · simp [sanitize]
  · simp [updateBlog, findByIdAndUpdate, hval, hok, hid, hfind]
  · simp [updateBlog, findByIdAndUpdate, hval, hok, hid, hfind]
  · simp [updateBlog, findByIdAndUpdate, hval, hok, hid, hfind]

/-- C2 witness: the amended statement at a concrete database and request. -/
theorem update_overwrites_fields_trimmed_witness :
    ∃ b, (updateBlog ⟨[⟨"0123456789abcdef01234567", "T", "C", "A", ["k"], 1, 1⟩], 1, false⟩
        "0123456789abcdef01234567"
        ⟨some " U ", some "D", some "B", some (.arr [" x "])⟩ 2).1 =
        { status := 200, success := true, message := some "Blog updated successfully",
          data := some b } ∧
      b.title = strTrim " U " ∧ b.content = strTrim "D" ∧ b.author = strTrim "B" ∧
      b.tags = (tagsOrEmpty (some (.arr [" x "]))).map strTrim ∧
      b.updatedAt = 2 ∧ b.createdAt = 1 ∧ b.id = "0123456789abcdef01234567" ∧
      (updateBlog ⟨[⟨"0123456789abcdef01234567", "T", "C", "A", ["k"], 1, 1⟩], 1, false⟩
        "0123456789abcdef01234567"
        ⟨some " U ", some "D", some "B", some (.arr [" x "])⟩ 2).2.docs =
        [⟨"0123456789abcdef01234567", "T", "C", "A", ["k"], 1, 1⟩].map
          (fun x => if x.id == "0123456789abcdef01234567" then b else x) ∧
      (updateBlog ⟨[⟨"0123456789abcdef01234567", "T", "C", "A", ["k"], 1, 1⟩], 1, false⟩
        "0123456789abcdef01234567"
        ⟨some " U ", some "D", some "B", some (.arr [" x "])⟩ 2).2.nextId = 1 ∧
      (updateBlog ⟨[⟨"0123456789abcdef01234567", "T", "C", "A", ["k"], 1, 1⟩], 1, false⟩
        "0123456789abcdef01234567"
        ⟨some " U ", some "D", some "B", some (.arr [" x "])⟩ 2).2.failing = false :=
  update_overwrites_fields_trimmed
    ⟨[⟨"0123456789abcdef01234567", "T", "C", "A", ["k"], 1, 1⟩], 1, false⟩
    "0123456789abcdef01234567" ⟨some " U ", some "D", some "B", some (.arr [" x "])⟩ 2
    ⟨"0123456789abcdef01234567", "T", "C", "A", ["k"], 1, 1⟩
    (by decide) rfl (by decide) (by decide)

/-- C10: creating from a request whose title, content and author carry
surrounding whitespace stores the trimmed values (validation's sanitizer
trims the body, and the schema trims again, idempotently), and an immediate
fetch by the returned id yields exactly that trimmed stored entity. -/
theorem create_stores_trimmed_roundtrip (db : DB) (req : ReqBody) (now : Nat)
    (title content author : String)
    (ht : req.title = some title) (hc : req.content = some content)
    (ha : req.author = some author)
    (hval : validateBlog req = []) (hok : db.failing = false)
    (hfresh : ∀ b ∈ db.docs, b.id ≠ genId db.nextId) :
    ∃ b, (createBlog db req now).1.data = some b ∧
      b.title = strTrim title ∧ b.content = strTrim content ∧ b.author = strTrim author ∧
      getBlogById (createBlog db req now).2 b.id =
        { status := 200, success := true, data := some b } := by
  have hid : isValidObjectId (genId db.nextId) = true := isValidObjectId_genId _
  have hn : db.docs.find? (fun b => b.id == genId db.nextId) = none := by
    rw [List.find?_eq_none]
    intro x hx
    simpa using hfresh x hx
  refine ⟨mkBlogDoc (genId db.nextId) (strTrim title) (strTrim content) (strTrim author)
    (tagsOrEmpty (sanitize req).tags) now, ?_, ?_, ?_, ?_, ?_⟩
  · simp [createBlog, saveBlog, hval, hok, sanitize, ht, hc, ha]
  · simpa [mkBlogDoc] using strTrim_idem title
  · simpa [mkBlogDoc] using strTrim_idem content
  · simpa [mkBlogDoc] using strTrim_idem author
  · simp [createBlog, saveBlog, hval, hok, sanitize, ht, hc, ha,
      getBlogById, findById, mkBlogDoc, hid, hn]

/-- C10 witness: creating with padded title/content/author on an empty
database stores the trimmed strings and fetching the returned id finds them. -/
theorem create_stores_trimmed_roundtrip_witness :
    ∃ b, (createBlog ⟨[], 0, false⟩ ⟨some " T ", some " C ", some " A ", none⟩ 7).1.data
        = some b ∧
      b.title = strTrim " T " ∧ b.content = strTrim " C " ∧ b.author = strTrim " A " ∧
      getBlogById (createBlog ⟨[], 0, false⟩
          ⟨some " T ", some " C ", some " A ", none⟩ 7).2 b.id =
        { status := 200, success := true, data := some b } :=
  create_stores_trimmed_roundtrip ⟨[], 0, false⟩
    ⟨some " T ", some " C ", some " A ", none⟩ 7 " T " " C " " A "
    rfl rfl rfl (by decide) rfl (by simp)

end BlogSite
